import Mathlib

/-!
Shallow embedding of the murgabazar-blog backend (src/main.py, src/models.py,
src/schemas.py): a minimal blogging service with signup/login, blog CRUD with
owner-only mutation, and an on-disk media store for uploaded images.

Database rows are modelled as records, the two tables as lists of rows with
explicit autoincrement counters, `db.query(...).filter(...).first()` as
`List.find?`, `.all()` as the whole list, and the upload directory as an
association list from path to bytes.  Each endpoint is a pure function from
the pre-state (and request data) to an HTTP outcome plus the post-state.
Fallible OS file writes are modelled by an explicit `writeFails` flag together
with the exception text `errMsg` (the `str(e)` of the raised exception).
-/

/-- Bytes of an uploaded file, each in [0, 256). -/
abbrev Bytes := List Nat

/-- Modelled from the spec (§4.1 Credential Store): the hashing code lives in
the missing `auth` module.  A hash is a one-way transform with a per-call
random salt; `verify` is true iff the password matches the one the hash was
derived from.  We model the hash as the salt paired with the password it was
derived from. -/
structure PwHash where
  salt : Nat
  pw : String
deriving DecidableEq, Repr

/-- Modelled from the spec (§4.1): `hash(password) -> hash` with per-call
random salt (the salt is passed in explicitly here). -/
def hash_password (password : String) (salt : Nat) : PwHash :=
  { salt := salt, pw := password }

/-- Modelled from the spec (§4.1): `verify(password, hash) -> bool`, true iff
the password matches the hash it was derived from. -/
def verify_password (password : String) (h : PwHash) : Bool :=
  password == h.pw

/-- Modelled from the spec (§4.2 Token Issuer, missing `auth` module):
`issue(subject) -> token`, a credential encoding the subject (the user's
email). Expiry and signature are not needed by any claim. -/
def create_access_token (sub : String) : String :=
  "token:" ++ sub

/-- A row of the `users` table (src/models.py, class User). -/
structure UserRec where
  id : Nat
  email : String
  password : PwHash
deriving DecidableEq, Repr

/-- A row of the `blogs` table (src/models.py, class Blog). -/
structure BlogRec where
  id : Nat
  title : String
  content : String
  tags : String
  image : Option String
  owner_id : Nat
deriving DecidableEq, Repr

/-- The database: the two tables, plus autoincrement counters for the
integer primary keys. -/
structure DB where
  users : List UserRec
  blogs : List BlogRec
  nextUserId : Nat
  nextBlogId : Nat
deriving DecidableEq, Repr

/-- Well-formedness of a database state: primary keys and the unique email
column are duplicate-free, and every assigned id is below the autoincrement
counter (so freshly assigned ids are new). -/
def DB.WF (db : DB) : Prop :=
  (db.blogs.map (fun b => b.id)).Nodup ∧
  (db.users.map (fun u => u.id)).Nodup ∧
  (db.users.map (fun u => u.email)).Nodup ∧
  (∀ b ∈ db.blogs, b.id < db.nextBlogId) ∧
  (∀ u ∈ db.users, u.id < db.nextUserId)

instance (db : DB) : Decidable db.WF := by
  unfold DB.WF; infer_instance

/-- The media store: the contents of the upload directory, as an association
list from file path to file bytes. -/
abbrev FS := List (String × Bytes)

/-- `os.path.join(a, b)` for the simple relative paths used here. -/
def path_join (a b : String) : String := a ++ "/" ++ b

/-- src/main.py line 19: `UPLOAD_DIR = "uploads"`. -/
def UPLOAD_DIR : String := "uploads"

/-- Writing a file: `open(path, "wb")` truncates, so a write under an existing
path silently overwrites it. -/
def fsWrite (fs : FS) (p : String) (content : Bytes) : FS :=
  (p, content) :: fs.filter (fun q => !(q.1 == p))

/-- Reading a file from the store, `none` when the path does not exist. -/
def fsRead (fs : FS) (p : String) : Option Bytes :=
  (fs.find? (fun q => q.1 == p)).map (fun q => q.2)

/-- An uploaded multipart file: original filename and content bytes. -/
structure UploadFileRec where
  filename : String
  file : Bytes
deriving DecidableEq, Repr

/-- Outcome of a request: a 200 payload, or an HTTP error status with the
`detail` string of its JSON body. -/
inductive HResp (α : Type) where
  | ok (val : α)
  | err (status : Nat) (detail : String)
deriving DecidableEq, Repr

/-- src/main.py lines 31-34: the catch-all exception handler prints the
traceback server-side and answers 500 with a generic body.  Returns the
response (status, detail) paired with the log line. -/
def custom_exception_handler (exc_traceback : String) : (Nat × String) × String :=
  ((500, "Internal Server Error"), "ERROR: " ++ exc_traceback)

/-- src/main.py lines 37-44, POST /signup: reject when a user with the email
already exists, else insert a new user with the hashed password. -/
def signup (db : DB) (email password : String) (salt : Nat) : HResp String × DB :=
  if (db.users.find? (fun u => u.email == email)).isSome then
    (.err 400 "Email already exists", db)
  else
    let new_user : UserRec :=
      { id := db.nextUserId, email := email, password := hash_password password salt }
    (.ok "User created successfully",
     { db with users := db.users ++ [new_user], nextUserId := db.nextUserId + 1 })

/-- src/main.py lines 47-53, POST /login: 401 unless a user with that email
exists and the password verifies; on success an access token for the user's
email, with token_type "bearer". -/
def login (db : DB) (username password : String) : HResp (String × String) :=
  match db.users.find? (fun u => u.email == username) with
  | none => .err 401 "Invalid credentials"
  | some user =>
    if verify_password password user.password then
      .ok (create_access_token user.email, "bearer")
    else
      .err 401 "Invalid credentials"

/-- src/main.py lines 56-78, POST /blogs/ (authenticated as `current_user`):
if an image is attached, write it under `uploads/<filename>` first — a failed
write raises HTTPException(500, "Image upload failed: " ++ str(e)) before any
database change; then insert the blog row owned by the caller. -/
def create_blog (db : DB) (fs : FS) (current_user : UserRec)
    (title content tags : String) (image : Option UploadFileRec)
    (writeFails : Bool) (errMsg : String) : HResp BlogRec × DB × FS :=
  match image with
  | some img =>
    if writeFails then
      (.err 500 ("Image upload failed: " ++ errMsg), db, fs)
    else
      let image_path := path_join UPLOAD_DIR img.filename
      let fs1 := fsWrite fs image_path img.file
      let blog : BlogRec :=
        { id := db.nextBlogId, title := title, content := content, tags := tags,
          image := some image_path, owner_id := current_user.id }
      (.ok blog,
       { db with blogs := db.blogs ++ [blog], nextBlogId := db.nextBlogId + 1 }, fs1)
  | none =>
    let blog : BlogRec :=
      { id := db.nextBlogId, title := title, content := content, tags := tags,
        image := none, owner_id := current_user.id }
    (.ok blog,
     { db with blogs := db.blogs ++ [blog], nextBlogId := db.nextBlogId + 1 }, fs)

/-- src/main.py lines 81-83, GET /blogs/: all rows of the blogs table. -/
def get_blogs (db : DB) : List BlogRec := db.blogs

/-- src/main.py lines 138-141, GET /blogs/all: also all rows of the blogs
table. -/
def get_all_blogs_with_users (db : DB) : List BlogRec := db.blogs

/-- src/main.py lines 86-91, GET /images/{filename}: 404 when
`uploads/<filename>` does not exist, else the file bytes. -/
def get_image (fs : FS) (filename : String) : HResp Bytes :=
  let path := path_join UPLOAD_DIR filename
  match fsRead fs path with
  | none => .err 404 "Image not found"
  | some content => .ok content

/-- src/main.py lines 94-101, DELETE /blogs/{id}: look the row up by id AND
owner; 404 when no row matches, else delete that row (by primary key). -/
def delete_blog (db : DB) (current_user : UserRec) (id : Nat) : HResp String × DB :=
  match db.blogs.find? (fun b => b.id == id && b.owner_id == current_user.id) with
  | none => (.err 404 "Blog not found or unauthorized", db)
  | some blog =>
    (.ok "Blog deleted",
     { db with blogs := db.blogs.filter (fun b => !(b.id == blog.id)) })

/-- src/main.py lines 104-135, PUT /blogs/{id}: look the row up by id AND
owner (404 when no match); apply exactly the supplied (non-None) fields; if
an image is attached, write it (a failed write raises
HTTPException(500, "Image upload failed: " ++ str(e)); the transaction is
never committed, so the row keeps its pre-request values) and set the image
path; finally commit the updated row in place of the old one. -/
def update_blog (db : DB) (fs : FS) (current_user : UserRec) (id : Nat)
    (title content tags : Option String) (image : Option UploadFileRec)
    (writeFails : Bool) (errMsg : String) : HResp BlogRec × DB × FS :=
  match db.blogs.find? (fun b => b.id == id && b.owner_id == current_user.id) with
  | none => (.err 404 "Blog not found or unauthorized", db, fs)
  | some blog =>
    let blog1 := match title with
      | some t => { blog with title := t }
      | none => blog
    let blog2 := match content with
      | some c => { blog1 with content := c }
      | none => blog1
    let blog3 := match tags with
      | some t => { blog2 with tags := t }
      | none => blog2
    match image with
    | some img =>
      if writeFails then
        (.err 500 ("Image upload failed: " ++ errMsg), db, fs)
      else
        let image_path := path_join UPLOAD_DIR img.filename
        let fs1 := fsWrite fs image_path img.file
        let blog4 := { blog3 with image := some image_path }
        (.ok blog4,
         { db with blogs := db.blogs.map (fun b => if b.id == blog.id then blog4 else b) },
         fs1)
    | none =>
      (.ok blog3,
       { db with blogs := db.blogs.map (fun b => if b.id == blog.id then blog3 else b) },
       fs)

/-- src/main.py lines 143-148, GET /blogs/{id}: first row with that id, 404
when none. -/
def get_blog_by_id (db : DB) (id : Nat) : HResp BlogRec :=
  match db.blogs.find? (fun b => b.id == id) with
  | none => .err 404 "Blog not found"
  | some blog => .ok blog

/-- src/schemas.py, class BlogResponse: the response schema shared by every
blog-returning endpoint. -/
structure BlogResponse where
  title : String
  content : String
  tags : String
  id : Nat
  image : Option String
  owner_id : Nat
deriving DecidableEq, Repr

/-- Serialization of a blog row through the BlogResponse schema
(orm_mode: field-by-field from the row). -/
def toResponse (b : BlogRec) : BlogResponse :=
  { title := b.title, content := b.content, tags := b.tags,
    id := b.id, image := b.image, owner_id := b.owner_id }

/-! ### Helper lemmas: `first()` queries under the table invariants -/

/-- With duplicate-free blog ids, the id+owner query finds exactly a member
row whose owner matches. -/
lemma find_blog_by_owner (db : DB) (hnd : (db.blogs.map (fun b => b.id)).Nodup)
    (b : BlogRec) (hb : b ∈ db.blogs) (uid : Nat) (hown : b.owner_id = uid) :
    db.blogs.find? (fun x => x.id == b.id && x.owner_id == uid) = some b := by
  cases h : db.blogs.find? (fun x => x.id == b.id && x.owner_id == uid) with
  | none =>
    exfalso
    have hcontra := List.find?_eq_none.mp h b hb
    simp [hown] at hcontra
  | some y =>
    have hpy := List.find?_some h
    have hmy := List.mem_of_find?_eq_some h
    simp only [Bool.and_eq_true, beq_iff_eq] at hpy
    have hyb : y = b := List.inj_on_of_nodup_map hnd hmy hb hpy.1
    rw [hyb]

/-- With duplicate-free blog ids, the id+owner query fails for a member row
whose owner does not match. -/
lemma find_blog_other_owner (db : DB) (hnd : (db.blogs.map (fun b => b.id)).Nodup)
    (b : BlogRec) (hb : b ∈ db.blogs) (uid : Nat) (hne : b.owner_id ≠ uid) :
    db.blogs.find? (fun x => x.id == b.id && x.owner_id == uid) = none := by
  apply List.find?_eq_none.mpr
  intro x hx
  simp only [Bool.and_eq_true, beq_iff_eq, not_and]
  intro hid
  have hxb : x = b := List.inj_on_of_nodup_map hnd hx hb hid
  rw [hxb]
  exact hne

/-- With duplicate-free blog ids, the id query finds exactly a member row. -/
lemma find_blog_by_id (db : DB) (hnd : (db.blogs.map (fun b => b.id)).Nodup)
    (b : BlogRec) (hb : b ∈ db.blogs) :
    db.blogs.find? (fun x => x.id == b.id) = some b := by
  cases h : db.blogs.find? (fun x => x.id == b.id) with
  | none =>
    exfalso
    have hcontra := List.find?_eq_none.mp h b hb
    simp at hcontra
  | some y =>
    have hpy := List.find?_some h
    have hmy := List.mem_of_find?_eq_some h
    simp only [beq_iff_eq] at hpy
    have hyb : y = b := List.inj_on_of_nodup_map hnd hmy hb hpy
    rw [hyb]

/-- With duplicate-free emails, the email query finds exactly a member user
with that email. -/
lemma find_user_by_email (db : DB) (hnd : (db.users.map (fun u => u.email)).Nodup)
    (u : UserRec) (hu : u ∈ db.users) (E : String) (he : u.email = E) :
    db.users.find? (fun x => x.email == E) = some u := by
  cases h : db.users.find? (fun x => x.email == E) with
  | none =>
    exfalso
    have hcontra := List.find?_eq_none.mp h u hu
    simp [he] at hcontra
  | some y =>
    have hpy := List.find?_some h
    have hmy := List.mem_of_find?_eq_some h
    simp only [beq_iff_eq] at hpy
    have hyu : y = u := List.inj_on_of_nodup_map hnd hmy hu (hpy.trans he.symm)
    rw [hyu]

/-- When no user has the email, the email query fails. -/
lemma find_user_by_email_none (db : DB) (E : String)
    (h : ∀ u ∈ db.users, u.email ≠ E) :
    db.users.find? (fun x => x.email == E) = none := by
  apply List.find?_eq_none.mpr
  intro x hx
  simp only [beq_iff_eq]
  exact h x hx

/-- Reading a path just written yields the bytes just written. -/
lemma fsRead_fsWrite_same (fs : FS) (p : String) (c : Bytes) :
    fsRead (fsWrite fs p c) p = some c := by
  simp [fsRead, fsWrite]

/-! ### Claims -/

/-- Claim C1: for every blog B and every authenticated user U whose id
differs from B's owner_id, PUT /blogs/{B.id} and DELETE /blogs/{B.id}
invoked by U fail with 404 and leave the database (hence B's row) and the
media store entirely unchanged. -/
theorem nonowner_update_delete_notfound (db : DB) (fs : FS) (u : UserRec) (b : BlogRec)
    (hwf : db.WF) (hb : b ∈ db.blogs) (hne : u.id ≠ b.owner_id)
    (title content tags : Option String) (image : Option UploadFileRec)
    (wfail : Bool) (e : String) :
    update_blog db fs u b.id title content tags image wfail e
      = (.err 404 "Blog not found or unauthorized", db, fs) ∧
    delete_blog db u b.id = (.err 404 "Blog not found or unauthorized", db) := by
  have hnone : db.blogs.find? (fun x => x.id == b.id && x.owner_id == u.id) = none :=
    find_blog_other_owner db hwf.1 b hb u.id (Ne.symm hne)
  constructor
  · simp [update_blog, hnone]
  · simp [delete_blog, hnone]

def userEx : UserRec := { id := 1, email := "a@x.com", password := { salt := 0, pw := "p1" } }

def userEx2 : UserRec := { id := 2, email := "b@x.com", password := { salt := 0, pw := "p2" } }

def blogEx : BlogRec :=
  { id := 1, title := "T", content := "", tags := "", image := none, owner_id := 1 }

def dbEx : DB := { users := [userEx, userEx2], blogs := [blogEx], nextUserId := 3, nextBlogId := 2 }

def fsEx : FS := []

/-- Witness for C1 at a concrete state: user 2 updating/deleting user 1's blog. -/
theorem nonowner_update_delete_notfound_witness :
    update_blog dbEx fsEx userEx2 blogEx.id none none none none false ""
      = (.err 404 "Blog not found or unauthorized", dbEx, fsEx) ∧
    delete_blog dbEx userEx2 blogEx.id = (.err 404 "Blog not found or unauthorized", dbEx) :=
  nonowner_update_delete_notfound dbEx fsEx userEx2 blogEx (by decide) (by decide) (by decide)
    none none none none false ""

/-- Claim C8: GET /blogs/ and GET /blogs/all return, on every database state,
the same sequence of rows and the same serialized BlogResponse list. -/
theorem blogs_list_endpoints_identical (db : DB) :
    get_blogs db = get_all_blogs_with_users db ∧
    (get_blogs db).map toResponse = (get_all_blogs_with_users db).map toResponse :=
  ⟨rfl, rfl⟩

/-- Claim C9: when the image write fails during POST /blogs/, the request
answers 500 and the database is exactly the pre-state: no blog row is
created. -/
theorem create_blog_write_failure_atomic (db : DB) (fs : FS) (u : UserRec)
    (title content tags : String) (img : UploadFileRec) (e : String) :
    (create_blog db fs u title content tags (some img) true e).1
      = .err 500 ("Image upload failed: " ++ e) ∧
    (create_blog db fs u title content tags (some img) true e).2.1 = db ∧
    (create_blog db fs u title content tags (some img) true e).2.1.blogs = db.blogs :=
  ⟨rfl, rfl, rfl⟩

/-- Claim C2: a successful owner PUT changes exactly the supplied fields;
every unsupplied field keeps its previous value, id and owner_id never
change, and the only row the database commit touches is the one with B's
id. -/
theorem owner_update_partial_fields (db : DB) (fs : FS) (u : UserRec) (b : BlogRec)
    (hwf : db.WF) (hb : b ∈ db.blogs) (hown : b.owner_id = u.id)
    (title content tags : Option String) (image : Option UploadFileRec) (e : String) :
    update_blog db fs u b.id title content tags image false e
      = (.ok { id := b.id, title := title.getD b.title, content := content.getD b.content,
               tags := tags.getD b.tags,
               image := match image with
                 | some img => some (path_join UPLOAD_DIR img.filename)
                 | none => b.image,
               owner_id := b.owner_id },
         { db with blogs := db.blogs.map (fun x =>
             if x.id == b.id then
               { id := b.id, title := title.getD b.title, content := content.getD b.content,
                 tags := tags.getD b.tags,
                 image := match image with
                   | some img => some (path_join UPLOAD_DIR img.filename)
                   | none => b.image,
                 owner_id := b.owner_id }
             else x) },
         match image with
         | some img => fsWrite fs (path_join UPLOAD_DIR img.filename) img.file
         | none => fs) := by
  have hfind := find_blog_by_owner db hwf.1 b hb u.id hown
  cases title <;> cases content <;> cases tags <;> cases image <;>
    simp [update_blog, hfind]

/-- Witness for C2: user 1 updates only the tags of their blog; title,
content and image keep their previous values. -/
theorem owner_update_partial_fields_witness :
    update_blog dbEx fsEx userEx blogEx.id none none (some "news") none false ""
      = (.ok { id := blogEx.id, title := blogEx.title, content := blogEx.content,
               tags := "news", image := blogEx.image, owner_id := blogEx.owner_id },
         { dbEx with blogs := dbEx.blogs.map (fun x =>
             if x.id == blogEx.id then
               { id := blogEx.id, title := blogEx.title, content := blogEx.content,
                 tags := "news", image := blogEx.image, owner_id := blogEx.owner_id }
             else x) },
         fsEx) :=
  owner_update_partial_fields dbEx fsEx userEx blogEx (by decide) (by decide) (by decide)
    none none (some "news") none ""

/-- Claim C10: in PUT, a supplied empty string is a real update (the code
skips only None/absent fields): supplying "" for title/content/tags sets
those fields to "", while omitting every field leaves the row equal to its
previous value. -/
theorem update_empty_string_is_real_update (db : DB) (fs : FS) (u : UserRec) (b : BlogRec)
    (hwf : db.WF) (hb : b ∈ db.blogs) (hown : b.owner_id = u.id) :
    update_blog db fs u b.id (some "") (some "") (some "") none false ""
      = (.ok { b with title := "", content := "", tags := "" },
         { db with blogs := db.blogs.map (fun x =>
             if x.id == b.id then { b with title := "", content := "", tags := "" } else x) },
         fs) ∧
    update_blog db fs u b.id none none none none false ""
      = (.ok b,
         { db with blogs := db.blogs.map (fun x => if x.id == b.id then b else x) },
         fs) := by
  have hfind := find_blog_by_owner db hwf.1 b hb u.id hown
  constructor <;> simp [update_blog, hfind]

/-- Witness for C10 at a concrete state: the empty-string update really
clears the fields of user 1's blog. -/
theorem update_empty_string_is_real_update_witness :
    update_blog dbEx fsEx userEx blogEx.id (some "") (some "") (some "") none false ""
      = (.ok { blogEx with title := "", content := "", tags := "" },
         { dbEx with blogs := dbEx.blogs.map (fun x =>
             if x.id == blogEx.id then { blogEx with title := "", content := "", tags := "" } else x) },
         fsEx) ∧
    update_blog dbEx fsEx userEx blogEx.id none none none none false ""
      = (.ok blogEx,
         { dbEx with blogs := dbEx.blogs.map (fun x => if x.id == blogEx.id then blogEx else x) },
         fsEx) :=
  update_empty_string_is_real_update dbEx fsEx userEx blogEx (by decide) (by decide) (by decide)

/-- Claim C5: POST /blogs/ with only a title succeeds with a blog having
that title, empty content and tags, no image, owned by the caller; the new
blog is then returned by GET /blogs/{id} and appears in GET /blogs/. -/
theorem create_blog_title_only (db : DB) (fs : FS) (u : UserRec) (hwf : db.WF) (T : String) :
    ∃ b : BlogRec,
      (create_blog db fs u T "" "" none false "").1 = .ok b ∧
      b.title = T ∧ b.content = "" ∧ b.tags = "" ∧ b.image = none ∧ b.owner_id = u.id ∧
      get_blog_by_id (create_blog db fs u T "" "" none false "").2.1 b.id = .ok b ∧
      b ∈ get_blogs (create_blog db fs u T "" "" none false "").2.1 := by
  refine ⟨{ id := db.nextBlogId, title := T, content := "", tags := "",
            image := none, owner_id := u.id }, rfl, rfl, rfl, rfl, rfl, rfl, ?_, ?_⟩
  · have h1 : db.blogs.find? (fun x =>
        x.id == (({ id := db.nextBlogId, title := T, content := "", tags := "",
                    image := none, owner_id := u.id } : BlogRec)).id) = none := by
      apply List.find?_eq_none.mpr
      intro x hx
      simp only [beq_iff_eq]
      exact Nat.ne_of_lt (hwf.2.2.2.1 x hx)
    simp [create_blog, get_blog_by_id, List.find?_append, h1]
  · simp [create_blog, get_blogs]

/-- Witness for C5 at a concrete state. -/
theorem create_blog_title_only_witness :
    ∃ b : BlogRec,
      (create_blog dbEx fsEx userEx "hello" "" "" none false "").1 = .ok b ∧
      b.title = "hello" ∧ b.content = "" ∧ b.tags = "" ∧ b.image = none ∧
      b.owner_id = userEx.id ∧
      get_blog_by_id (create_blog dbEx fsEx userEx "hello" "" "" none false "").2.1 b.id = .ok b ∧
      b ∈ get_blogs (create_blog dbEx fsEx userEx "hello" "" "" none false "").2.1 :=
  create_blog_title_only dbEx fsEx userEx (by decide) "hello"

/-- Claim C3: POST /login with username E and password P succeeds — returning
an access token for E with token_type "bearer" — exactly when a user with
email E exists and P verifies against that user's stored hash; in every
other case it answers 401 "Invalid credentials". -/
theorem login_iff_verify (db : DB) (hwf : db.WF) (E P : String) :
    ((∃ u ∈ db.users, u.email = E ∧ verify_password P u.password = true) →
      login db E P = .ok (create_access_token E, "bearer")) ∧
    ((¬ ∃ u ∈ db.users, u.email = E ∧ verify_password P u.password = true) →
      login db E P = .err 401 "Invalid credentials") := by
  constructor
  · rintro ⟨u, hu, he, hv⟩
    have hfind := find_user_by_email db hwf.2.2.1 u hu E he
    simp [login, hfind, hv, he]
  · intro hne
    unfold login
    cases h : db.users.find? (fun x => x.email == E) with
    | none => rfl
    | some u =>
      have hpu := List.find?_some h
      have hmu := List.mem_of_find?_eq_some h
      simp only [beq_iff_eq] at hpu
      have hv : verify_password P u.password = false := by
        by_contra hc
        rw [Bool.not_eq_false] at hc
        exact hne ⟨u, hmu, hpu, hc⟩
      simp [hv]

/-- Witness for C3: in the concrete state, the right password for user 1
logs in, so the success branch of the iff fires. -/
theorem login_iff_verify_witness :
    login dbEx "a@x.com" "p1" = .ok (create_access_token "a@x.com", "bearer") :=
  (login_iff_verify dbEx (by decide) "a@x.com" "p1").1
    ⟨userEx, by decide, by decide, by decide⟩

/-- Claim C4: POST /signup conflicts (400) exactly when a user with the email
already exists; starting from a state without the email, the first signup
succeeds and appends exactly one user row, and the second signup with the
same email answers 400 and changes nothing. -/
theorem signup_conflict_iff_exists (db : DB) (E P P2 : String) (s s2 : Nat)
    (hnone : ∀ u ∈ db.users, u.email ≠ E) :
    (∀ db2 : DB,
      ((signup db2 E P s).1 = .err 400 "Email already exists" ↔
        ∃ u ∈ db2.users, u.email = E)) ∧
    (signup db E P s).1 = .ok "User created successfully" ∧
    (signup db E P s).2.users
      = db.users ++ [{ id := db.nextUserId, email := E, password := hash_password P s }] ∧
    signup (signup db E P s).2 E P2 s2
      = (.err 400 "Email already exists", (signup db E P s).2) := by
  have hiff : ∀ db2 : DB,
      ((signup db2 E P s).1 = .err 400 "Email already exists" ↔
        ∃ u ∈ db2.users, u.email = E) := by
    intro db2
    constructor
    · intro heq
      by_contra hno
      push_neg at hno
      have hn : db2.users.find? (fun x => x.email == E) = none :=
        find_user_by_email_none db2 E hno
      simp [signup, hn] at heq
    · rintro ⟨u, hu, he⟩
      have hsome : (db2.users.find? (fun x => x.email == E)).isSome = true := by
        cases h : db2.users.find? (fun x => x.email == E) with
        | none =>
          exact absurd (show (u.email == E) = true by simp [he])
            (List.find?_eq_none.mp h u hu)
        | some y => rfl
      simp [signup, hsome]
  have hfind0 : db.users.find? (fun x => x.email == E) = none :=
    find_user_by_email_none db E hnone
  have hsecond : signup (signup db E P s).2 E P2 s2
      = (.err 400 "Email already exists", (signup db E P s).2) := by
    have hsome : ((signup db E P s).2.users.find? (fun x => x.email == E)).isSome = true := by
      simp [signup, hfind0, List.find?_append]
    simp only [signup] at hsome ⊢
    simp only [hfind0, Option.isSome_none, Bool.false_eq_true, if_false] at hsome ⊢
    simp [hsome]
  exact ⟨hiff, by simp [signup, hfind0], by simp [signup, hfind0], hsecond⟩

/-- Witness for C4 at a concrete state with no user "c@x.com": first signup
succeeds, second conflicts. -/
theorem signup_conflict_iff_exists_witness :
    (∀ db2 : DB,
      ((signup db2 "c@x.com" "pw" 7).1 = .err 400 "Email already exists" ↔
        ∃ u ∈ db2.users, u.email = "c@x.com")) ∧
    (signup dbEx "c@x.com" "pw" 7).1 = .ok "User created successfully" ∧
    (signup dbEx "c@x.com" "pw" 7).2.users
      = dbEx.users ++ [{ id := dbEx.nextUserId, email := "c@x.com",
                         password := hash_password "pw" 7 }] ∧
    signup (signup dbEx "c@x.com" "pw" 7).2 "c@x.com" "pw2" 9
      = (.err 400 "Email already exists", (signup dbEx "c@x.com" "pw" 7).2) :=
  signup_conflict_iff_exists dbEx "c@x.com" "pw" "pw2" 7 9 (by decide)

/-- Counterexample to C6 as stated: the 500 produced by a failed image write
during POST /blogs/ carries "Image upload failed: " followed by str(e) in the
response detail — the exception detail reaches the client, and the body is
not the generic one the top-level handler produces. -/
theorem error_detail_leak_counterexample :
    (create_blog dbEx fsEx userEx "T" "" ""
        (some { filename := "a.png", file := [1, 2] }) true "disk full").1
      = .err 500 "Image upload failed: disk full" ∧
    (custom_exception_handler "tb").1.2 = "Internal Server Error" ∧
    "Image upload failed: disk full" ≠ "Internal Server Error" :=
  ⟨rfl, rfl, by decide⟩

/-- Claim C6 (amended): exceptions reaching the top-level handler answer 500
with the generic body "Internal Server Error", the full traceback going only
to the server log; but a media-store write failure during POST /blogs/ or
PUT /blogs/{id} raises HTTPException(500) whose detail embeds str(e), so for
those the exception detail does appear in the response body. -/
theorem internal_error_responses (tb e : String) (db : DB) (fs : FS) (u : UserRec)
    (b : BlogRec) (hwf : db.WF) (hb : b ∈ db.blogs) (hown : b.owner_id = u.id)
    (title content tags : String) (img : UploadFileRec) :
    custom_exception_handler tb = ((500, "Internal Server Error"), "ERROR: " ++ tb) ∧
    (create_blog db fs u title content tags (some img) true e).1
      = .err 500 ("Image upload failed: " ++ e) ∧
    (update_blog db fs u b.id none none none (some img) true e).1
      = .err 500 ("Image upload failed: " ++ e) := by
  have hfind := find_blog_by_owner db hwf.1 b hb u.id hown
  exact ⟨rfl, rfl, by simp [update_blog, hfind]⟩

/-- Witness for the amended C6 at a concrete state. -/
theorem internal_error_responses_witness :
    custom_exception_handler "tb" = ((500, "Internal Server Error"), "ERROR: " ++ "tb") ∧
    (create_blog dbEx fsEx userEx "T" "" ""
        (some { filename := "a.png", file := [1] }) true "disk full").1
      = .err 500 ("Image upload failed: " ++ "disk full") ∧
    (update_blog dbEx fsEx userEx blogEx.id none none none
        (some { filename := "a.png", file := [1] }) true "disk full").1
      = .err 500 ("Image upload failed: " ++ "disk full") :=
  internal_error_responses "tb" "disk full" dbEx fsEx userEx blogEx
    (by decide) (by decide) (by decide) "T" "" "" { filename := "a.png", file := [1] }

/-- Claim C7: an image uploaded under filename F (via POST /blogs/ or via an
owner PUT) is returned byte-identical by GET /images/F, and a second upload
under the same filename silently overwrites: retrieval returns the bytes of
the most recent upload. -/
theorem image_roundtrip_latest (db : DB) (fs : FS) (u : UserRec)
    (hwf : db.WF) (F : String) (B B2 : Bytes) (title content tags : String) :
    get_image
        (create_blog db fs u title content tags
          (some { filename := F, file := B }) false "").2.2 F
      = .ok B ∧
    (∀ b ∈ db.blogs, b.owner_id = u.id →
      get_image
          (update_blog db fs u b.id none none none
            (some { filename := F, file := B }) false "").2.2 F
        = .ok B) ∧
    get_image
        (create_blog
          (create_blog db fs u title content tags
            (some { filename := F, file := B }) false "").2.1
          (create_blog db fs u title content tags
            (some { filename := F, file := B }) false "").2.2
          u title content tags (some { filename := F, file := B2 }) false "").2.2 F
      = .ok B2 := by
  refine ⟨?_, ?_, ?_⟩
  · simp [create_blog, get_image, fsRead_fsWrite_same]
  · intro b hb hown
    have hfind := find_blog_by_owner db hwf.1 b hb u.id hown
    simp [update_blog, hfind, get_image, fsRead_fsWrite_same]
  · simp [create_blog, get_image, fsRead_fsWrite_same]

/-- Witness for C7 at a concrete state: upload, owner re-upload, and
overwrite under the same filename. -/
theorem image_roundtrip_latest_witness :
    get_image
        (create_blog dbEx fsEx userEx "T" "" ""
          (some { filename := "pic.png", file := [3, 4] }) false "").2.2 "pic.png"
      = .ok [3, 4] ∧
    (∀ b ∈ dbEx.blogs, b.owner_id = userEx.id →
      get_image
          (update_blog dbEx fsEx userEx b.id none none none
            (some { filename := "pic.png", file := [3, 4] }) false "").2.2 "pic.png"
        = .ok [3, 4]) ∧
    get_image
        (create_blog
          (create_blog dbEx fsEx userEx "T" "" ""
            (some { filename := "pic.png", file := [3, 4] }) false "").2.1
          (create_blog dbEx fsEx userEx "T" "" ""
            (some { filename := "pic.png", file := [3, 4] }) false "").2.2
          userEx "T" "" "" (some { filename := "pic.png", file := [5] }) false "").2.2 "pic.png"
      = .ok [5] :=
  image_roundtrip_latest dbEx fsEx userEx (by decide) "pic.png" [3, 4] [5] "T" "" ""
